import Mathlib

/-
Verification development for the neumorphic-peripheral UI component library.

The definitions below are a shallow embedding of the library's core:
the pure validation engine (src/validators.ts), the password-strength
scorer, the theme store (src/themes/index.ts), the base component
lifecycle (src/components/base.ts), and the widget behaviours of the
Input, Password, Toggle and Button components that the stated
properties concern.  JavaScript strings are modelled as Lean `String`
(string length counts characters), JS `string | null` / `string |
undefined` as `Option String`, and JS truthiness of a string as
"different from the empty string" (the empty string is the only falsy
string).  DOM side effects are modelled as explicit state records.
-/

namespace NP

/-! ## Whitespace and the e-mail regex (src/utils/index.ts) -/

/-- Character class `\s` of JavaScript regular expressions: space, tab,
line terminators, and the Unicode space separators that `\s` matches. -/
def jsSpace (c : Char) : Bool :=
  c = ' ' || c = '\t' || c = '\n' || c = '\r' ||
  c.val = 0x0b || c.val = 0x0c || c.val = 0xa0 || c.val = 0x1680 ||
  (0x2000 ≤ c.val && c.val ≤ 0x200a) ||
  c.val = 0x2028 || c.val = 0x2029 || c.val = 0x202f ||
  c.val = 0x205f || c.val = 0x3000 || c.val = 0xfeff

/-- Embedding of JavaScript `value.trim()`: strip leading and trailing
whitespace characters.  Defined directly on the character list so that it
evaluates inside proofs. -/
def jsTrim (s : String) : String :=
  ⟨((s.data.dropWhile jsSpace).reverse.dropWhile jsSpace).reverse⟩

/-- Test whether the character list has a dot at an interior position:
some split `cs = b ++ [dot] ++ c` with `b` and `c` non-empty.  This is how
the tail `[^\s@]+\.[^\s@]+` of the e-mail regex matches (the two residual
classes may themselves contain further dots). -/
def hasInteriorDot (cs : List Char) : Bool :=
  (List.range cs.length).any fun i =>
    decide (0 < i) && decide (i + 1 < cs.length) && (cs.getD i ' ' == '.')

/-- Embedding of `isValidEmail` (src/utils/index.ts): the test
`/^[^\s@]+@[^\s@]+\.[^\s@]+$/.test(email)`.  A string matches exactly when
it has no `\s` character, exactly one `@`, a non-empty part before the
`@`, and after the `@` a dot with at least one character on each side. -/
def isValidEmail (email : String) : Bool :=
  let cs := email.data
  let localPart := cs.takeWhile (· ≠ '@')
  let domainPart := (cs.dropWhile (· ≠ '@')).drop 1
  cs.all (fun c => !jsSpace c) &&
  (cs.filter (· == '@')).length == 1 &&
  !localPart.isEmpty &&
  hasInteriorDot domainPart

/-! ## Validation engine data model (src/types.ts) -/

/-- Embedding of `ValidationFunction = (value: string) => string | null`. -/
def ValidationFunction := String → Option String

/-- Embedding of `ValidationResult { isValid: boolean, errors: string[] }`. -/
structure ValidationResult where
  isValid : Bool
  errors : List String
deriving Repr, DecidableEq

/-- Embedding of the structured `ValidationConfig` record.  In the source
every field is optional; absent boolean fields are falsy, so `required`
and `email` are modelled as `Bool` (absent = `false`), the remaining
fields as `Option`.  A `RegExp` is modelled by its test function
`String → Bool`; note the record carries no message for `pattern`. -/
structure ValidationConfig where
  required : Bool
  email : Bool
  minLength : Option Nat
  maxLength : Option Nat
  pattern : Option (String → Bool)
  custom : Option (List ValidationFunction)

/-- A rule set as accepted by `validateValue`: either a single custom
function or a structured `ValidationConfig`. -/
inductive RuleSet where
  | func (f : ValidationFunction)
  | config (c : ValidationConfig)

/-- Embedding of the JS push pattern `if (error) errors.push(error)`:
the message is appended only when truthy (non-null and non-empty). -/
def pushIfTruthy : Option String → List String
  | some s => if s ≠ "" then [s] else []
  | none => []

/-! ## Built-in validators (src/validators.ts, `validators` object) -/

namespace validators

/-- Embedding of `validators.required`. -/
def required (value : String) : Option String :=
  if jsTrim value = "" then some "This field is required" else none

/-- Embedding of `validators.email`; `value && !isValidEmail(value)`,
where the empty string is the only falsy string. -/
def email (value : String) : Option String :=
  if value ≠ "" ∧ ¬ isValidEmail value then
    some "Please enter a valid email address"
  else none

/-- Embedding of `validators.minLength(min)`. -/
def minLength (min : Nat) (value : String) : Option String :=
  if value ≠ "" ∧ value.length < min then
    some ("Must be at least " ++ toString min ++ " characters")
  else none

/-- Embedding of `validators.maxLength(max)`. -/
def maxLength (max : Nat) (value : String) : Option String :=
  if value ≠ "" ∧ value.length > max then
    some ("Must be no more than " ++ toString max ++ " characters")
  else none

/-- Embedding of `validators.pattern(regex, message)`; the message
parameter defaults to `patternDefaultMessage` at its call sites. -/
def pattern (regex : String → Bool) (message : String) (value : String) :
    Option String :=
  if value ≠ "" ∧ ¬ regex value then some message else none

/-- Default message of `validators.pattern` (`'Invalid format'`). -/
def patternDefaultMessage : String := "Invalid format"

end validators

/-! ## The main evaluation function `validateValue` (src/validators.ts) -/

/-- Embedding of `validateValue(value, config)`.  The branch structure
mirrors the source: a function rule set contributes its sole truthy
result; otherwise `required` runs first and returns early on an empty
trimmed value, an empty trimmed value short-circuits to valid, and the
remaining rules accumulate errors in the fixed source order.  The
`pattern` rule is invoked as `validators.pattern(config.pattern)` in the
source, so it uses the default message. -/
def validateValue (value : String) (config : RuleSet) : ValidationResult :=
  match config with
  | .func f =>
      let errors := pushIfTruthy (f value)
      { isValid := errors.isEmpty, errors := errors }
  | .config cfg =>
      let requiredErrors :=
        if cfg.required then pushIfTruthy (validators.required value) else []
      if cfg.required ∧ requiredErrors ≠ [] ∧ jsTrim value = "" then
        { isValid := false, errors := requiredErrors }
      else if jsTrim value = "" then
        { isValid := true, errors := [] }
      else
        let emailErrorsHere :=
          if cfg.email then pushIfTruthy (validators.email value) else []
        let minLengthErrorsHere :=
          match cfg.minLength with
          | some m => pushIfTruthy (validators.minLength m value)
          | none => []
        let maxLengthErrorsHere :=
          match cfg.maxLength with
          | some m => pushIfTruthy (validators.maxLength m value)
          | none => []
        let patternErrorsHere :=
          match cfg.pattern with
          | some p =>
              pushIfTruthy
                (validators.pattern p validators.patternDefaultMessage value)
          | none => []
        let customErrorsHere :=
          match cfg.custom with
          | some fs => (fs.map (fun f => pushIfTruthy (f value))).flatten
          | none => []
        let errors := requiredErrors ++ emailErrorsHere ++ minLengthErrorsHere
          ++ maxLengthErrorsHere ++ patternErrorsHere ++ customErrorsHere
        { isValid := errors.isEmpty, errors := errors }

/-! Per-rule error lists, used to state the fixed-order accumulation
property of `validateValue` independently of its control flow. -/

/-- Errors contributed by the e-mail rule of a structured rule set. -/
def emailRuleErrors (cfg : ValidationConfig) (value : String) : List String :=
  if cfg.email then pushIfTruthy (validators.email value) else []

/-- Errors contributed by the `minLength` rule. -/
def minLengthRuleErrors (cfg : ValidationConfig) (value : String) : List String :=
  match cfg.minLength with
  | some m => pushIfTruthy (validators.minLength m value)
  | none => []

/-- Errors contributed by the `maxLength` rule. -/
def maxLengthRuleErrors (cfg : ValidationConfig) (value : String) : List String :=
  match cfg.maxLength with
  | some m => pushIfTruthy (validators.maxLength m value)
  | none => []

/-- Errors contributed by the `pattern` rule (its message is the engine's
fixed default, the rule set record carries none of its own). -/
def patternRuleErrors (cfg : ValidationConfig) (value : String) : List String :=
  match cfg.pattern with
  | some p =>
      pushIfTruthy (validators.pattern p validators.patternDefaultMessage value)
  | none => []

/-- Errors contributed by the `custom` functions, in array order. -/
def customRuleErrors (cfg : ValidationConfig) (value : String) : List String :=
  match cfg.custom with
  | some fs => (fs.map (fun f => pushIfTruthy (f value))).flatten
  | none => []


/-! ## Password strength scoring (src/validators.ts, `validatePasswordStrength`) -/

/-- Strength label union type `'weak' | 'fair' | 'good' | 'strong'`. -/
inductive Strength where
  | weak
  | fair
  | good
  | strong
deriving Repr, DecidableEq

/-- Result record of `validatePasswordStrength`. -/
structure StrengthResult where
  score : Nat
  feedback : List String
  strength : Strength
deriving Repr, DecidableEq

/-- Length criterion `password.length >= 8`. -/
def hasMinLength8 (password : String) : Bool :=
  decide (password.length ≥ 8)

/-- Uppercase criterion, the test `/[A-Z]/.test(password)`. -/
def hasUppercase (password : String) : Bool :=
  password.data.any fun c => decide ('A' ≤ c ∧ c ≤ 'Z')

/-- Lowercase criterion, the test `/[a-z]/.test(password)`. -/
def hasLowercase (password : String) : Bool :=
  password.data.any fun c => decide ('a' ≤ c ∧ c ≤ 'z')

/-- Digit criterion, the test `/[0-9]/.test(password)`. -/
def hasDigit (password : String) : Bool :=
  password.data.any fun c => decide ('0' ≤ c ∧ c ≤ '9')

/-- Special-character criterion, the test `/[^A-Za-z0-9]/.test(password)`:
some character outside the three ASCII alphanumeric ranges. -/
def hasSpecial (password : String) : Bool :=
  password.data.any fun c =>
    !(decide ('A' ≤ c ∧ c ≤ 'Z') || decide ('a' ≤ c ∧ c ≤ 'z')
      || decide ('0' ≤ c ∧ c ≤ '9'))

/-- Embedding of `validatePasswordStrength(password)`: one point per met
criterion, a feedback line per unmet criterion, both accumulated in the
fixed source order (length, uppercase, lowercase, digit, special), then
the label derived from the final score. -/
def validatePasswordStrength (password : String) : StrengthResult :=
  let score0 : Nat := 0
  let feedback0 : List String := []
  let sf1 :=
    if hasMinLength8 password then (score0 + 1, feedback0)
    else (score0, feedback0 ++ ["Use at least 8 characters"])
  let sf2 :=
    if hasUppercase password then (sf1.1 + 1, sf1.2)
    else (sf1.1, sf1.2 ++ ["Add uppercase letters"])
  let sf3 :=
    if hasLowercase password then (sf2.1 + 1, sf2.2)
    else (sf2.1, sf2.2 ++ ["Add lowercase letters"])
  let sf4 :=
    if hasDigit password then (sf3.1 + 1, sf3.2)
    else (sf3.1, sf3.2 ++ ["Add numbers"])
  let sf5 :=
    if hasSpecial password then (sf4.1 + 1, sf4.2)
    else (sf4.1, sf4.2 ++ ["Add special characters"])
  let strength :=
    if sf5.1 ≤ 2 then Strength.weak
    else if sf5.1 = 3 then Strength.fair
    else if sf5.1 = 4 then Strength.good
    else Strength.strong
  { score := sf5.1, feedback := sf5.2, strength := strength }

/-- The five scoring criteria of the strength scorer, in source order. -/
def strengthCriteria (password : String) : List Bool :=
  [hasMinLength8 password, hasUppercase password, hasLowercase password,
   hasDigit password, hasSpecial password]

/-- Feedback messages for the five criteria, in the same fixed order. -/
def criteriaMessages : List String :=
  ["Use at least 8 characters", "Add uppercase letters",
   "Add lowercase letters", "Add numbers", "Add special characters"]

/-- Label attached to a score: 0-2 weak, 3 fair, 4 good, otherwise strong. -/
def scoreLabel (score : Nat) : Strength :=
  if score ≤ 2 then Strength.weak
  else if score = 3 then Strength.fair
  else if score = 4 then Strength.good
  else Strength.strong

/-- Messages of exactly the unmet criteria, in the fixed scoring order. -/
def missingFeedback (password : String) : List String :=
  ((strengthCriteria password).zip criteriaMessages).filterMap
    fun bm => if bm.1 then none else some bm.2

/-! ## Claims C1-C4 about the validation engine -/

/-- C1: for every structured rule set with `required = true` and every
value whose trimmed form is empty, `validateValue` returns invalid with
exactly the required-field message, independently of every other
configured rule (the theorem holds for all `email`/`minLength`/
`maxLength`/`pattern`/`custom` settings, so none of them is consulted). -/
theorem validateValue_required_empty (cfg : ValidationConfig) (value : String)
    (hreq : cfg.required = true) (hempty : jsTrim value = "") :
    validateValue value (.config cfg) =
      { isValid := false, errors := ["This field is required"] } := by
  simp [validateValue, validators.required, pushIfTruthy, hreq, hempty]

/-- Concrete rule set exercising every non-required rule, used by the C1
witness: all other rules would also fail on the witness value. -/
def witnessCfgC1 : ValidationConfig :=
  { required := true, email := true, minLength := some 5, maxLength := some 0,
    pattern := some (fun _ => false), custom := some [fun _ => some "boom"] }

/-- Witness for C1 at the all-whitespace value `"  "`. -/
theorem validateValue_required_empty_witness :
    witnessCfgC1.required = true ∧ jsTrim "  " = "" ∧
    validateValue "  " (.config witnessCfgC1) =
      { isValid := false, errors := ["This field is required"] } :=
  ⟨rfl, by decide, validateValue_required_empty witnessCfgC1 "  " rfl (by decide)⟩

/-- C2: for every structured rule set with `required` unset (falsy) and
every value whose trimmed form is empty, `validateValue` short-circuits
to a valid, error-free result regardless of any other configured rule. -/
theorem validateValue_optional_empty (cfg : ValidationConfig) (value : String)
    (hreq : cfg.required = false) (hempty : jsTrim value = "") :
    validateValue value (.config cfg) = { isValid := true, errors := [] } := by
  simp [validateValue, hreq, hempty]

/-- Concrete rule set for the C2 witness: every non-required rule is
configured and would fail on a non-empty value. -/
def witnessCfgC2 : ValidationConfig :=
  { required := false, email := true, minLength := some 5, maxLength := some 0,
    pattern := some (fun _ => false), custom := some [fun _ => some "boom"] }

/-- Witness for C2 at the all-whitespace value `" "`. -/
theorem validateValue_optional_empty_witness :
    witnessCfgC2.required = false ∧ jsTrim " " = "" ∧
    validateValue " " (.config witnessCfgC2) = { isValid := true, errors := [] } :=
  ⟨rfl, by decide, validateValue_optional_empty witnessCfgC2 " " rfl (by decide)⟩

/-- C3: for every structured rule set and value with non-empty trimmed
form, the errors are exactly the concatenation, in the fixed order
email, minLength, maxLength, pattern, custom (array order), of each
failing rule's message — the pattern rule contributing the engine's
fixed `'Invalid format'` message — with `isValid` equal to emptiness of
that list.  No rule short-circuits any later one. -/
theorem validateValue_accumulates (cfg : ValidationConfig) (value : String)
    (hne : jsTrim value ≠ "") :
    validateValue value (.config cfg) =
      { isValid := (emailRuleErrors cfg value ++ minLengthRuleErrors cfg value
          ++ maxLengthRuleErrors cfg value ++ patternRuleErrors cfg value
          ++ customRuleErrors cfg value).isEmpty,
        errors := emailRuleErrors cfg value ++ minLengthRuleErrors cfg value
          ++ maxLengthRuleErrors cfg value ++ patternRuleErrors cfg value
          ++ customRuleErrors cfg value } := by
  have hreqd : validators.required value = none := by
    simp [validators.required, hne]
  simp [validateValue, hreqd, emailRuleErrors, minLengthRuleErrors,
    maxLengthRuleErrors, patternRuleErrors, customRuleErrors, pushIfTruthy, hne]

/-- Concrete rule set for the C3 witness: email, both lengths, pattern
and two of three custom functions fail on `"abc"`. -/
def witnessCfgC3 : ValidationConfig :=
  { required := false, email := true, minLength := some 5, maxLength := some 2,
    pattern := some (fun _ => false),
    custom := some [fun _ => some "c1", fun _ => none, fun _ => some "c2"] }

/-- Witness for C3 at value `"abc"`: all five rule kinds report in order. -/
theorem validateValue_accumulates_witness :
    (jsTrim "abc" ≠ "") ∧
    validateValue "abc" (.config witnessCfgC3) =
      { isValid := false,
        errors := ["Please enter a valid email address",
          "Must be at least 5 characters", "Must be no more than 2 characters",
          "Invalid format", "c1", "c2"] } := by
  refine ⟨by decide, ?_⟩
  rw [validateValue_accumulates witnessCfgC3 "abc" (by decide)]
  decide

/-- C4: for every string the strength scorer awards one point per met
criterion (length ≥ 8, uppercase, lowercase, digit, special character),
labels scores 0-2 weak, 3 fair, 4 good, 5 strong, and reports as
feedback exactly the messages of the unmet criteria in the fixed
scoring order. -/
theorem validatePasswordStrength_spec (password : String) :
    (validatePasswordStrength password).score
        = (strengthCriteria password).count true ∧
    (validatePasswordStrength password).strength
        = scoreLabel ((strengthCriteria password).count true) ∧
    (validatePasswordStrength password).feedback = missingFeedback password := by
  cases h1 : hasMinLength8 password <;> cases h2 : hasUppercase password <;>
    cases h3 : hasLowercase password <;> cases h4 : hasDigit password <;>
    cases h5 : hasSpecial password <;>
    simp [validatePasswordStrength, strengthCriteria, missingFeedback,
      scoreLabel, criteriaMessages, List.count, h1, h2, h3, h4, h5]

/-! ## Claim C10 about `PasswordComponent.getPasswordStrength` -/

/-- Embedding of `PasswordComponent.getPasswordStrength()`
(src/components/password.ts): `password ? validatePasswordStrength(password)
: null` applied to the field's current value `this.getValue()` — the empty
string is the only falsy string. -/
def getPasswordStrength (value : String) : Option StrengthResult :=
  if value ≠ "" then some (validatePasswordStrength value) else none

/-- C10: `getPasswordStrength` returns `null` exactly when the current
value is empty, and otherwise the strength of the current value. -/
theorem getPasswordStrength_spec (value : String) :
    (getPasswordStrength value = none ↔ value = "") ∧
    (value ≠ "" →
      getPasswordStrength value = some (validatePasswordStrength value)) := by
  by_cases h : value = "" <;> simp [getPasswordStrength, h]

/-- Witness for C10 at a non-empty value. -/
theorem getPasswordStrength_spec_witness :
    ("MyStr0ng!Pass" ≠ "") ∧
    getPasswordStrength "MyStr0ng!Pass"
      = some (validatePasswordStrength "MyStr0ng!Pass") :=
  ⟨by decide, (getPasswordStrength_spec "MyStr0ng!Pass").2 (by decide)⟩


/-! ## Base component lifecycle (src/components/base.ts) -/

/-- Registered listener triple `(element, event, handler)` of the base
class's `_listeners` bookkeeping, with element and handler abstracted by
identifiers. -/
structure ListenerRecord where
  target : Nat
  event : String
  handler : Nat
deriving Repr, DecidableEq

/-- State of a `BaseComponent` instance, parametrised by the
widget-specific substate `α` that the overridable `onDestroy` hook
cleans up.  `classes` models the element's class list, `destroyEmits`
counts `np:destroy` events emitted on the element, and `onDestroyRuns`
counts invocations of the widget-specific cleanup hook. -/
structure BaseState (α : Type) where
  listeners : List ListenerRecord
  classes : List String
  className : Option String
  destroyEmits : Nat
  onDestroyRuns : Nat
  widget : α
  destroyed : Bool
deriving Repr, DecidableEq

/-- Embedding of `BaseComponent.destroy()`: an already-destroyed instance
returns immediately; otherwise every recorded listener is removed, the
`np-component` class and the configured custom class are stripped, the
destroy notification is emitted, the widget-specific `onDestroy` hook
runs, and only then is the destroyed flag set. -/
def destroy {α : Type} (onDestroy : α → α) (s : BaseState α) : BaseState α :=
  if s.destroyed then s
  else
    let s := { s with listeners := [] }
    let s := { s with classes := s.classes.erase "np-component" }
    let s :=
      match s.className with
      | some c => { s with classes := s.classes.erase c }
      | none => s
    let s := { s with destroyEmits := s.destroyEmits + 1 }
    let s := { s with widget := onDestroy s.widget,
                      onDestroyRuns := s.onDestroyRuns + 1 }
    { s with destroyed := true }

/-- C8: `destroy()` is idempotent — a second call is a complete no-op on
the instance state (so it removes nothing a second time, emits no second
destroy notification, and re-runs no cleanup hook), while a first call on
a live instance emits exactly one destroy notification and runs the
widget cleanup hook exactly once. -/
theorem destroy_idempotent {α : Type} (onDestroy : α → α) (s : BaseState α) :
    destroy onDestroy (destroy onDestroy s) = destroy onDestroy s ∧
    (s.destroyed = false →
      (destroy onDestroy s).destroyEmits = s.destroyEmits + 1 ∧
      (destroy onDestroy s).onDestroyRuns = s.onDestroyRuns + 1) := by
  constructor
  · by_cases h : s.destroyed = true
    · simp [destroy, h]
    · simp only [Bool.not_eq_true] at h
      cases hc : s.className <;> simp [destroy, h, hc]
  · intro h
    cases hc : s.className <;> simp [destroy, h, hc]

/-- Concrete live instance for the C8 witness. -/
def witnessBaseC8 : BaseState Nat :=
  { listeners := [{ target := 0, event := "np:theme-change", handler := 0 }],
    classes := ["np-component", "custom-class"],
    className := some "custom-class",
    destroyEmits := 0, onDestroyRuns := 0, widget := 0, destroyed := false }

/-- Witness for C8 on a live instance with one listener and a custom
class: the double destroy equals the single destroy, which emitted once
and cleaned up once. -/
theorem destroy_idempotent_witness :
    witnessBaseC8.destroyed = false ∧
    destroy (fun n => n + 1) (destroy (fun n => n + 1) witnessBaseC8)
      = destroy (fun n => n + 1) witnessBaseC8 ∧
    (destroy (fun n => n + 1) witnessBaseC8).destroyEmits
      = witnessBaseC8.destroyEmits + 1 ∧
    (destroy (fun n => n + 1) witnessBaseC8).onDestroyRuns
      = witnessBaseC8.onDestroyRuns + 1 :=
  ⟨rfl, (destroy_idempotent (fun n => n + 1) witnessBaseC8).1,
    (destroy_idempotent (fun n => n + 1) witnessBaseC8).2 rfl⟩

/-! ## Input validation flow (src/components/input.ts)

The `TextareaComponent`'s `performValidation` and `validate` methods are
line-for-line identical to the `InputComponent` ones embedded here, so
the statements cover both widgets. -/

/-- Slice of an `InputComponent` instance relevant to validation: the
current element value, the effective `validate` and `showValidation`
configuration, the stored `_validationResult`, the global validation
manager's entry for the element, and the element's error presentation
(aria-invalid attribute and `np-error` class). -/
structure InputValState where
  value : String
  validate : Option RuleSet
  showValidation : Bool
  validationResult : Option ValidationResult
  managerEntry : Option ValidationResult
  ariaInvalid : Bool
  errorClass : Bool

/-- Embedding of `InputComponent.performValidation()`: the guard
`if (!validate || !showValidation) return` leaves every piece of state
untouched and yields `undefined` (modelled `none`); otherwise the value
is evaluated, the result stored, the manager entry updated (the manager
re-evaluates the same element value, producing the same result), and the
error presentation refreshed.  The JS return value is paired with the
updated state. -/
def performValidation (s : InputValState) :
    Option ValidationResult × InputValState :=
  match s.validate, s.showValidation with
  | none, _ => (none, s)
  | some _, false => (none, s)
  | some rules, true =>
      let r := validateValue s.value rules
      (some r,
        { s with validationResult := some r, managerEntry := some r,
                 ariaInvalid := !r.isValid, errorClass := !r.isValid })

/-- Embedding of the public `validate()` method:
`this.performValidation() || { isValid: true, errors: [] }`. -/
def validateMethod (s : InputValState) : ValidationResult × InputValState :=
  match performValidation s with
  | (some r, t) => (r, t)
  | (none, t) => ({ isValid := true, errors := [] }, t)

/-- C9: with no `validate` rule set configured, or with `showValidation`
false, `validate()` returns a valid, empty result and changes nothing:
no result is stored and neither the element nor the validation manager
is touched. -/
theorem validateMethod_no_rules (s : InputValState)
    (h : s.validate = none ∨ s.showValidation = false) :
    validateMethod s = ({ isValid := true, errors := [] }, s) := by
  rcases h with h | h
  · simp [validateMethod, performValidation, h]
  · cases hv : s.validate <;> simp [validateMethod, performValidation, hv, h]

/-- Concrete state for the C9 witness: no rule set configured. -/
def witnessInputC9 : InputValState :=
  { value := "abc", validate := none, showValidation := true,
    validationResult := none, managerEntry := none,
    ariaInvalid := false, errorClass := false }

/-- Witness for C9 at a concrete rule-free state. -/
theorem validateMethod_no_rules_witness :
    (witnessInputC9.validate = none ∨ witnessInputC9.showValidation = false) ∧
    validateMethod witnessInputC9
      = ({ isValid := true, errors := [] }, witnessInputC9) :=
  ⟨Or.inl rfl, validateMethod_no_rules witnessInputC9 (Or.inl rfl)⟩


/-! ## Button loading state (src/components/button.ts) -/

/-- Marker for the DOM content `setLoading(true)` installs: the spinner
span followed by the `'Loading...'` label span.  The exact markup
serialization is irrelevant to the stated properties; what matters is
that it is non-empty and distinct from ordinary button content. -/
def loadingContent : String :=
  "<span class=np-loading-spinner></span><span>Loading...</span>"

/-- Slice of a `ButtonComponent` instance relevant to `setLoading`: the
element's content, the native disabled property, the cursor and opacity
inline styles, the `np-loading` class, the `loading` config flag, the
stored `_originalContent` (`undefined` modelled as `none`), and the
configured disabled flag. -/
structure ButtonState where
  innerHTML : String
  nativeDisabled : Bool
  cursor : String
  opacity : String
  loadingClass : Bool
  loading : Bool
  originalContent : Option String
  cfgDisabled : Bool
deriving Repr, DecidableEq

/-- Embedding of `ButtonComponent.setLoading(loading)`.  Turning loading
on stores the current content in `_originalContent`, disables the
control and swaps in the spinner content.  Turning loading off restores
the stored content only when `_originalContent` is truthy — `undefined`
and the empty string are both falsy in `if (this._originalContent)` —
then re-enables the control unless the configuration disables it. -/
def setLoading (s : ButtonState) (loading : Bool) : ButtonState :=
  let s := { s with loading := loading }
  if loading then
    { s with originalContent := some s.innerHTML,
             nativeDisabled := true, cursor := "not-allowed", opacity := "0.7",
             innerHTML := loadingContent, loadingClass := true }
  else
    let s :=
      match s.originalContent with
      | some c => if c ≠ "" then { s with innerHTML := c } else s
      | none => s
    { s with nativeDisabled := s.cfgDisabled,
             cursor := if s.cfgDisabled then "not-allowed" else "pointer",
             opacity := if s.cfgDisabled then "0.5" else "1",
             loadingClass := false }

/-- Concrete button with empty original content, the failing input of C7. -/
def witnessButtonC7 : ButtonState :=
  { innerHTML := "", nativeDisabled := false, cursor := "pointer",
    opacity := "1", loadingClass := false, loading := false,
    originalContent := none, cfgDisabled := false }

/-- C7 at the failing input: starting from empty content,
`setLoading(true)` followed by `setLoading(false)` re-enables the
control but leaves the spinner content in place — the truthiness guard
skips restoring the stored empty string, so the content is not restored
exactly. -/
theorem setLoading_empty_content_not_restored :
    (setLoading (setLoading witnessButtonC7 true) false).innerHTML
        = loadingContent ∧
    loadingContent ≠ "" ∧
    (setLoading (setLoading witnessButtonC7 true) false).nativeDisabled
        = false := by
  refine ⟨rfl, by decide, rfl⟩

/-! ## Theme store (src/themes/index.ts) and the theme broadcast
(src/components/base.ts, `bindEvents`) -/

/-- Shadow colour pair of a theme. -/
structure ShadowColors where
  light : String
  dark : String
deriving Repr, DecidableEq

/-- Colour record of a `NeumorphicTheme`. -/
structure ThemeColors where
  surface : String
  shadow : ShadowColors
  text : String
  textSecondary : String
  accent : String
  error : String
  success : String
deriving Repr, DecidableEq

/-- Animation record of a `NeumorphicTheme`. -/
structure ThemeAnimation where
  duration : String
  easing : String
deriving Repr, DecidableEq

/-- Embedding of the `NeumorphicTheme` record (src/types.ts).  The
numeric `shadowIntensity` field (0.15 light, 0.2 dark) is carried in
hundredths to stay within decidable arithmetic; no stated property
depends on it. -/
structure NeumorphicTheme where
  colors : ThemeColors
  borderRadius : String
  spacing : String
  shadowIntensityHundredths : Nat
  animation : ThemeAnimation
deriving Repr, DecidableEq

/-- The built-in light theme preset (src/themes/index.ts). -/
def lightTheme : NeumorphicTheme :=
  { colors :=
      { surface := "#f0f0f3",
        shadow := { light := "#ffffff", dark := "#d1d9e6" },
        text := "#333333", textSecondary := "#666666",
        accent := "#6c5ce7", error := "#e74c3c", success := "#27ae60" },
    borderRadius := "12px", spacing := "16px",
    shadowIntensityHundredths := 15,
    animation := { duration := "0.2s",
                   easing := "cubic-bezier(0.4, 0, 0.2, 1)" } }

/-- The built-in dark theme preset (src/themes/index.ts). -/
def darkTheme : NeumorphicTheme :=
  { colors :=
      { surface := "#2d3748",
        shadow := { light := "#4a5568", dark := "#1a202c" },
        text := "#f7fafc", textSecondary := "#cbd5e0",
        accent := "#805ad5", error := "#fc8181", success := "#68d391" },
    borderRadius := "12px", spacing := "16px",
    shadowIntensityHundredths := 20,
    animation := { duration := "0.2s",
                   easing := "cubic-bezier(0.4, 0, 0.2, 1)" } }

/-- The preset names `'light' | 'dark'`. -/
inductive ThemePreset where
  | light
  | dark
deriving Repr, DecidableEq

/-- Embedding of the `themes` record mapping preset names to themes. -/
def themes : ThemePreset → NeumorphicTheme
  | .light => lightTheme
  | .dark => darkTheme

/-- The `config.theme` field of a component: absent, a preset name
(a string in the source), or an explicit theme object. -/
inductive ThemeSetting where
  | preset (p : ThemePreset)
  | obj (t : NeumorphicTheme)
deriving Repr, DecidableEq

/-- Slice of a component instance relevant to the theme broadcast: the
configuration's theme field, the resolved `_theme`, the element's
background-color style, and whether the instance is live (its
`np:theme-change` window listener is registered at construction and
removed by `destroy()`). -/
structure ThemedComp where
  cfgTheme : Option ThemeSetting
  theme : NeumorphicTheme
  backgroundColor : String
  live : Bool
deriving Repr, DecidableEq

/-- Reaction of one component instance to the `np:theme-change` window
event (src/components/base.ts): a destroyed instance no longer has the
listener; a live instance's handler re-resolves the theme and re-applies
base styling (setting the element's background color to the new surface
colour) only when `typeof this._config.theme === 'string'`, i.e. only
when the configuration named a preset. -/
def onThemeChangeComp (current : NeumorphicTheme) (c : ThemedComp) :
    ThemedComp :=
  if c.live then
    match c.cfgTheme with
    | some (.preset _) =>
        { c with theme := current, backgroundColor := current.colors.surface }
    | _ => c
  else c

/-- The theme store together with all component instances on the page. -/
structure ThemeWorld where
  currentTheme : NeumorphicTheme
  comps : List ThemedComp
deriving Repr, DecidableEq

/-- Argument of `setTheme`: a theme object or a preset name. -/
inductive ThemeArg where
  | obj (t : NeumorphicTheme)
  | preset (p : ThemePreset)
deriving Repr, DecidableEq

/-- Embedding of `setTheme(theme)` (src/themes/index.ts): resolve a
preset name through the `themes` record, replace the current theme, and
dispatch the `np:theme-change` event, which every live instance's
listener receives synchronously.  The CSS custom-property application on
the document root is not depicted; no stated property mentions it. -/
def setTheme (w : ThemeWorld) (t : ThemeArg) : ThemeWorld :=
  let current :=
    match t with
    | .obj t => t
    | .preset p => themes p
  { currentTheme := current,
    comps := w.comps.map (onThemeChangeComp current) }

/-- Concrete live instance constructed without a configured theme: at
construction it resolved `getCurrentTheme()` (the light theme) and
painted the light surface colour. -/
def compNoTheme : ThemedComp :=
  { cfgTheme := none, theme := lightTheme,
    backgroundColor := lightTheme.colors.surface, live := true }

/-- Page with a single live, theme-less instance, before `setTheme('dark')`. -/
def worldC5 : ThemeWorld := { currentTheme := lightTheme, comps := [compNoTheme] }

/-- C5 counterexample: after `setTheme('dark')` a live instance whose
configuration did not specify a theme keeps the light surface colour —
the broadcast handler only repaints instances whose configured theme is
a preset string, so the claim fails for theme-less instances. -/
theorem setTheme_dark_misses_unconfigured :
    ∃ c, c ∈ (setTheme worldC5 (.preset .dark)).comps ∧ c.live = true ∧
      c.cfgTheme = none ∧ c.backgroundColor ≠ darkTheme.colors.surface := by
  refine ⟨compNoTheme, ?_, rfl, rfl, by decide⟩
  simp [setTheme, worldC5, onThemeChangeComp, compNoTheme]

/-- C5 as amended: after `setTheme('dark')`, every live instance whose
configuration names its theme by preset string has its element's
background colour set to the dark theme's surface colour, without any
per-instance refresh call; instances with no configured theme (or with
an explicit theme object) are not repainted. -/
theorem setTheme_dark_updates_preset_themed (w : ThemeWorld) (c : ThemedComp)
    (hc : c ∈ (setTheme w (.preset .dark)).comps) (hlive : c.live = true)
    (p : ThemePreset) (hp : c.cfgTheme = some (.preset p)) :
    c.backgroundColor = darkTheme.colors.surface := by
  simp only [setTheme, List.mem_map] at hc
  obtain ⟨a, -, rfl⟩ := hc
  by_cases hl : a.live = true
  · rcases hct : a.cfgTheme with - | ts
    · simp [onThemeChangeComp, hl, hct] at hp
    · rcases ts with q | t
      · simp [onThemeChangeComp, hl, hct, themes]
      · simp [onThemeChangeComp, hl, hct] at hp
  · simp only [Bool.not_eq_true] at hl
    simp [onThemeChangeComp, hl] at hlive

/-- Concrete live instance configured with the preset name `'light'`. -/
def compPresetLight : ThemedComp :=
  { cfgTheme := some (.preset .light), theme := lightTheme,
    backgroundColor := lightTheme.colors.surface, live := true }

/-- The same instance after the dark-theme broadcast repainted it. -/
def compPresetLightAfter : ThemedComp :=
  { cfgTheme := some (.preset .light), theme := darkTheme,
    backgroundColor := darkTheme.colors.surface, live := true }

/-- Page with a single live, preset-themed instance. -/
def worldC5W : ThemeWorld :=
  { currentTheme := lightTheme, comps := [compPresetLight] }

/-- Witness for the amended C5 on a page with one live preset-themed
instance. -/
theorem setTheme_dark_updates_preset_themed_witness :
    compPresetLightAfter ∈ (setTheme worldC5W (.preset .dark)).comps ∧
    compPresetLightAfter.live = true ∧
    compPresetLightAfter.cfgTheme = some (.preset .light) ∧
    compPresetLightAfter.backgroundColor = darkTheme.colors.surface := by
  have hm : compPresetLightAfter ∈ (setTheme worldC5W (.preset .dark)).comps := by
    simp [setTheme, worldC5W, onThemeChangeComp, compPresetLight,
      compPresetLightAfter, themes]
  exact ⟨hm, rfl, rfl,
    setTheme_dark_updates_preset_themed worldC5W compPresetLightAfter hm rfl
      .light rfl⟩


/-! ## Toggle radio-group behaviour (src/components/toggle.ts) -/

/-- Slice of a `ToggleComponent` instance and its native input relevant
to radio-group behaviour: the instance's `_isChecked` flag, the native
input's `checked` property, the input's `name` attribute (the radio
group key), and the disabled flag.  A page is a list of such instances,
addressed by index. -/
structure ToggleComp where
  isChecked : Bool
  inputChecked : Bool
  name : String
  disabled : Bool
deriving Repr, DecidableEq

/-- Apply a function to the instance at index `i`, leaving the rest. -/
def updateAt (comps : List ToggleComp) (i : Nat)
    (f : ToggleComp → ToggleComp) : List ToggleComp :=
  comps.mapIdx fun j c => if j = i then f c else c

/-- Native DOM semantics of the assignment `input.checked = b` on a
radio input (host-environment behaviour, not library code): assigning
`true` makes the browser uncheck every other radio input sharing the
same `name` in the same tree, and no `change` event fires on any input
for a programmatic assignment. -/
def assignNativeChecked (comps : List ToggleComp) (i : Nat) (b : Bool) :
    List ToggleComp :=
  let groupName :=
    match comps.get? i with
    | some c => c.name
    | none => ""
  comps.mapIdx fun j c =>
    if j = i then { c with inputChecked := b }
    else if b && c.name == groupName then { c with inputChecked := false }
    else c

/-- Embedding of `ToggleComponent.toggle()` on the instance at index
`i`: a disabled instance returns; otherwise the instance flips its
`_isChecked`, assigns it to its native input (with the native radio
group side effect), updates its visuals, emits, and dispatches a
`change` event on its own input.  That event reaches only this
instance's own `change` listener, which re-reads its own input's
`checked`; each sibling's listener is bound to the sibling's own input
and never receives the event, so sibling instance state is untouched. -/
def toggleOp (comps : List ToggleComp) (i : Nat) : List ToggleComp :=
  match comps.get? i with
  | none => comps
  | some c =>
      if c.disabled then comps
      else
        let newChecked := !c.isChecked
        let comps := updateAt comps i fun a => { a with isChecked := newChecked }
        let comps := assignNativeChecked comps i newChecked
        updateAt comps i fun a => { a with isChecked := a.inputChecked }

/-- Embedding of `check()`: toggle only when not already checked. -/
def checkOp (comps : List ToggleComp) (i : Nat) : List ToggleComp :=
  match comps.get? i with
  | none => comps
  | some c => if c.isChecked then comps else toggleOp comps i

/-- Embedding of `setChecked(checked)`: toggle only on an actual change. -/
def setCheckedOp (comps : List ToggleComp) (i : Nat) (checked : Bool) :
    List ToggleComp :=
  match comps.get? i with
  | none => comps
  | some c => if c.isChecked ≠ checked then toggleOp comps i else comps

/-- First radio toggle of the failing input: unchecked, in group `g`. -/
def radioA : ToggleComp :=
  { isChecked := false, inputChecked := false, name := "g", disabled := false }

/-- Second radio toggle of the failing input: checked, same group `g`. -/
def radioB : ToggleComp :=
  { isChecked := true, inputChecked := true, name := "g", disabled := false }

/-- C6 at the failing input: calling `check()` on the first of two
radio-backed toggles sharing group `g` checks the first (instance state
and native input agree) and unchecks the sibling's native input via the
native radio-group semantics, but the sibling instance still reports
`isChecked() = true` — its `change` listener never fired, so its
`_isChecked` is stale, contradicting the claimed group exclusivity. -/
theorem radio_sibling_state_stale :
    (checkOp [radioA, radioB] 0).map (fun c => (c.isChecked, c.inputChecked))
      = [(true, true), (true, false)] := by
  decide

end NP
